import Mathlib

/-!
Verification of the sec-crawler repository (src/sec-crawler.py, src/download.py)
against its natural-language specification.

The Python source is shallowly embedded: pure helpers become Lean functions,
the filesystem and network become explicit state / oracle parameters, Python
exceptions become `Option`/`Except` results, and the time-dependent rate
limiter becomes a step function over rational timestamps.  Every definition
is translated from the source file it names.
-/

namespace SecCrawler

/-! ## SECFileType (src/sec-crawler.py lines 45-94)

The Python `Enum` with eleven members, each carrying a string `value`,
and the two classmethods `from_int` / `from_string`, both implemented as
dictionary lookups returning `None` (`Option.none`) on unknown keys. -/

inductive SECFileType where
  | TEN_K | TEN_Q | EIGHT_K | THIRTEEN_F
  | SCHEDULE_13D | SCHEDULE_13G
  | FORM_3 | FORM_4 | FORM_5 | FORM_S_1 | FORM_144
  deriving DecidableEq, Repr

namespace SECFileType

/-- The `value` attribute of each enum member, as written in the source. -/
def value : SECFileType → String
  | TEN_K => "10-K"
  | TEN_Q => "10-Q"
  | EIGHT_K => "8-K"
  | THIRTEEN_F => "13F-HR"
  | SCHEDULE_13D => "SC 13D"
  | SCHEDULE_13G => "SC 13G"
  | FORM_3 => "3"
  | FORM_4 => "4"
  | FORM_5 => "5"
  | FORM_S_1 => "S-1"
  | FORM_144 => "144"

/-- `SECFileType.from_int`: the integer-keyed dictionary lookup,
`mapping.get(value)` returning `None` for unknown keys. -/
def from_int (v : Int) : Option SECFileType :=
  if v = 1 then some TEN_K
  else if v = 2 then some TEN_Q
  else if v = 3 then some EIGHT_K
  else if v = 4 then some THIRTEEN_F
  else if v = 5 then some SCHEDULE_13D
  else if v = 6 then some SCHEDULE_13G
  else if v = 7 then some FORM_3
  else if v = 8 then some FORM_4
  else if v = 9 then some FORM_5
  else if v = 10 then some FORM_S_1
  else if v = 11 then some FORM_144
  else none

/-- `SECFileType.from_string`: the string-keyed dictionary lookup,
`mapping.get(value)` returning `None` for unknown keys. -/
def from_string (v : String) : Option SECFileType :=
  if v = "10-K" then some TEN_K
  else if v = "10-Q" then some TEN_Q
  else if v = "8-K" then some EIGHT_K
  else if v = "13F-HR" then some THIRTEEN_F
  else if v = "SC 13D" then some SCHEDULE_13D
  else if v = "SC 13G" then some SCHEDULE_13G
  else if v = "3" then some FORM_3
  else if v = "4" then some FORM_4
  else if v = "5" then some FORM_5
  else if v = "S-1" then some FORM_S_1
  else if v = "144" then some FORM_144
  else none

end SECFileType

/-! ## RateLimiter (src/sec-crawler.py lines 27-42)

`__next__` runs entirely under `self.lock`, so concurrent callers are
serialized into a linear sequence of acquisitions.  Each acquisition reads
the monotonic clock (`a`, the arrival time); if `a < next_yield` it sleeps
and re-reads the clock (`w`, the wake time, with `w ≥ next_yield` by the
sleep contract of a monotonic clock); it then sets
`next_yield := (return time) + interval` and returns.  We model one
acquisition by `acquireStep` on the shared `next_yield` state, a serialized
trace by `runCalls`, and the sleep contract by `validCalls`. -/

/-- One `RateLimiter.__next__` call: given `interval`, the current
`next_yield` state `ny`, the arrival clock reading `a` and the post-sleep
clock reading `w`, returns (return time, new `next_yield`). -/
def acquireStep (interval ny a w : ℚ) : ℚ × ℚ :=
  if a < ny then (w, w + interval) else (a, a + interval)

/-- The sequence of return times of a serialized trace of
`RateLimiter.__next__` calls, threading the `next_yield` state. -/
def runCalls (interval ny : ℚ) : List (ℚ × ℚ) → List ℚ
  | [] => []
  | (a, w) :: rest =>
      let s := acquireStep interval ny a w
      s.1 :: runCalls interval s.2 rest

/-- The sleep contract: whenever a call arrives early (`a < next_yield`),
`time.sleep(next_yield - a)` sleeps at least the requested duration, so the
re-read monotonic clock satisfies `w ≥ next_yield`. -/
def validCalls (interval ny : ℚ) : List (ℚ × ℚ) → Prop
  | [] => True
  | (a, w) :: rest =>
      (a < ny → ny ≤ w) ∧ validCalls interval (acquireStep interval ny a w).2 rest

instance : ∀ (interval ny : ℚ) (l : List (ℚ × ℚ)), Decidable (validCalls interval ny l) := by
  intro interval ny l
  induction l generalizing ny with
  | nil => exact .isTrue trivial
  | cons p rest ih =>
      obtain ⟨a, w⟩ := p
      exact @instDecidableAnd _ _ inferInstance (ih _)

theorem runCalls_cons (interval ny a w : ℚ) (rest : List (ℚ × ℚ)) :
    runCalls interval ny ((a, w) :: rest) =
      (acquireStep interval ny a w).1 ::
        runCalls interval (acquireStep interval ny a w).2 rest := rfl

theorem acquireStep_snd (interval ny a w : ℚ) :
    (acquireStep interval ny a w).2 = (acquireStep interval ny a w).1 + interval := by
  unfold acquireStep; split <;> rfl

/-- The first return time of a valid trace is at least the entering
`next_yield` value. -/
theorem runCalls_head_ge (interval ny : ℚ) (calls : List (ℚ × ℚ))
    (hv : validCalls interval ny calls) :
    ∀ r ∈ (runCalls interval ny calls).head?, ny ≤ r := by
  cases calls with
  | nil => intro r hr; simp [runCalls] at hr
  | cons p rest =>
      obtain ⟨a, w⟩ := p
      intro r hr
      simp only [runCalls_cons, List.head?_cons, Option.mem_def, Option.some.injEq] at hr
      subst hr
      by_cases h : a < ny
      · simpa [acquireStep, if_pos h] using hv.1 h
      · simp only [acquireStep, if_neg h]
        exact le_of_not_lt h

/-- C1.  Consecutive return times of the serialized `RateLimiter.__next__`
trace are separated by at least `interval`: each return is at least
`interval` after the previous one, for every interval, every initial
`next_yield`, and every trace satisfying the sleep contract.  Concurrency
is covered because the lock serializes all callers into one such trace. -/
theorem rateLimiter_returns_separated (interval ny : ℚ) (calls : List (ℚ × ℚ))
    (hv : validCalls interval ny calls) :
    List.Chain' (fun r1 r2 => r1 + interval ≤ r2) (runCalls interval ny calls) := by
  induction calls generalizing ny with
  | nil => simp [runCalls]
  | cons p rest ih =>
      obtain ⟨a, w⟩ := p
      rw [runCalls_cons, List.chain'_cons']
      refine ⟨?_, ih _ hv.2⟩
      intro r2 hr2
      have := runCalls_head_ge interval _ rest hv.2 r2 hr2
      rwa [acquireStep_snd] at this

/-- Witness for C1 at a concrete trace: interval 1, initial state 0, two
calls where the second arrives early (at time 1/2) and wakes at time 1. -/
theorem rateLimiter_returns_separated_witness :
    validCalls 1 0 [(0, 0), (1/2, 1)] ∧
      List.Chain' (fun r1 r2 => r1 + (1 : ℚ) ≤ r2) (runCalls 1 0 [(0, 0), (1/2, 1)]) :=
  ⟨by norm_num [validCalls, acquireStep],
    rateLimiter_returns_separated 1 0 [(0, 0), (1/2, 1)]
      (by norm_num [validCalls, acquireStep])⟩

/-! ## C7: the FilingType lookup tables form a bijection -/

/-- The numeric code of each member: the key mapping to it in the
`from_int` dictionary. -/
def SECFileType.intCode : SECFileType → Int
  | .TEN_K => 1
  | .TEN_Q => 2
  | .EIGHT_K => 3
  | .THIRTEEN_F => 4
  | .SCHEDULE_13D => 5
  | .SCHEDULE_13G => 6
  | .FORM_3 => 7
  | .FORM_4 => 8
  | .FORM_5 => 9
  | .FORM_S_1 => 10
  | .FORM_144 => 11

/-- The string keys of the `from_string` dictionary. -/
def recognizedStrings : List String :=
  ["10-K", "10-Q", "8-K", "13F-HR", "SC 13D", "SC 13G", "3", "4", "5", "S-1", "144"]

set_option maxHeartbeats 2000000 in
theorem from_int_eq_some (i : Int) (t : SECFileType) :
    SECFileType.from_int i = some t ↔ i = t.intCode := by
  constructor
  · intro h
    unfold SECFileType.from_int at h
    split_ifs at h <;>
      first
        | exact Option.noConfusion h
        | (obtain rfl := Option.some.inj h; assumption)
  · intro h
    subst h
    cases t <;> decide

set_option maxHeartbeats 2000000 in
theorem from_string_eq_some (s : String) (t : SECFileType) :
    SECFileType.from_string s = some t ↔ s = t.value := by
  constructor
  · intro h
    unfold SECFileType.from_string at h
    split_ifs at h <;>
      first
        | exact Option.noConfusion h
        | (obtain rfl := Option.some.inj h; assumption)
  · intro h
    subst h
    cases t <;> decide

theorem intCode_range (t : SECFileType) : 1 ≤ t.intCode ∧ t.intCode ≤ 11 := by
  cases t <;> exact ⟨by decide, by decide⟩

theorem value_mem_recognized (t : SECFileType) : t.value ∈ recognizedStrings := by
  cases t <;> decide

/-- C7.  The lookup tables are a bijection: a recognized numeric code `i`
round-trips through `value` and `from_string` back to `from_int i`;
`from_int` is injective, so no second integer reaches the same member;
and unrecognized numeric codes (outside 1..11) and unrecognized string
codes (outside the eleven keys) are rejected with `none`. -/
theorem filingType_lookup_bijection :
    (∀ (i : Int) (t : SECFileType),
        SECFileType.from_int i = some t → SECFileType.from_string t.value = some t) ∧
    (∀ (i j : Int) (t : SECFileType),
        SECFileType.from_int i = some t → SECFileType.from_int j = some t → i = j) ∧
    (∀ i : Int, SECFileType.from_int i = none ↔ ¬ (1 ≤ i ∧ i ≤ 11)) ∧
    (∀ s : String, SECFileType.from_string s = none ↔ s ∉ recognizedStrings) := by
  refine ⟨?_, ?_, ?_, ?_⟩
  · intro i t _
    exact (from_string_eq_some t.value t).mpr rfl
  · intro i j t hi hj
    rw [from_int_eq_some] at hi hj
    omega
  · intro i
    constructor
    · intro h hr
      obtain ⟨h1, h2⟩ := hr
      interval_cases i <;> exact absurd h (by decide)
    · intro hr
      rcases hfi : SECFileType.from_int i with _ | t
      · rfl
      · obtain rfl := (from_int_eq_some i t).mp hfi
        exact absurd (intCode_range t) hr
  · intro s
    constructor
    · intro h hmem
      fin_cases hmem <;> exact absurd h (by decide)
    · intro hmem
      rcases hfs : SECFileType.from_string s with _ | t
      · rfl
      · obtain rfl := (from_string_eq_some s t).mp hfs
        exact absurd (value_mem_recognized t) hmem

/-- Witness for C7 at concrete codes: numeric code 1 round-trips through
the string table, and injectivity applied at (1, 1). -/
theorem filingType_lookup_bijection_witness :
    SECFileType.from_string (SECFileType.value SECFileType.TEN_K) = some SECFileType.TEN_K ∧
      (1 : Int) = 1 :=
  ⟨filingType_lookup_bijection.1 1 SECFileType.TEN_K (by decide),
    filingType_lookup_bijection.2.1 1 1 SECFileType.TEN_K (by decide) (by decide)⟩

/-! ## C5: generate_filing_periods (src/sec-crawler.py lines 134-135)

The source is `[(d.year, d.quarter) for d in pd.date_range(self.start_date,
self.end_date, freq='Q')]`.  `pandas.date_range` with `freq='Q'` enumerates,
in ascending order, exactly the calendar quarter-END dates (Mar 31, Jun 30,
Sep 30, Dec 31) lying inside the closed interval `[start_date, end_date]`;
`d.year` and `d.quarter` recover the year and quarter of that date.  We
embed dates as year/month/day triples compared through `Date.val`
(faithful to calendar order for valid dates), and enumerate quarter
indices `i = 4*year + (quarter-1)` over the year window of the range —
exhaustive, because a quarter-end inside `[start, end]` has a year between
`start.year` and `end.year`. -/

structure Date where
  year : ℕ
  month : ℕ
  day : ℕ
  deriving DecidableEq, Repr

/-- Encoding of a date that is order-isomorphic to calendar order on valid
dates (month ≤ 12 and day ≤ 31 keep the components from carrying). -/
def Date.val (d : Date) : ℕ := d.year * 10000 + d.month * 100 + d.day

/-- Structural validity of a calendar date, as far as ordering needs. -/
def Date.Valid (d : Date) : Prop :=
  1 ≤ d.month ∧ d.month ≤ 12 ∧ 1 ≤ d.day ∧ d.day ≤ 31

instance (d : Date) : Decidable d.Valid := by
  unfold Date.Valid; infer_instance

/-- The last day of quarter `q` of year `y`: Mar 31, Jun 30, Sep 30, Dec 31. -/
def quarterEnd (y q : ℕ) : Date :=
  ⟨y, 3 * q, if q % 2 = 1 then 31 else 30⟩

/-- The first day of quarter `q` of year `y`. -/
def quarterStart (y q : ℕ) : Date := ⟨y, 3 * q - 2, 1⟩

/-- Quarter-end date of the absolute quarter index `i = 4*year + (quarter-1)`. -/
def quarterIdxEnd (i : ℕ) : Date := quarterEnd (i / 4) (i % 4 + 1)

/-- `SECDataDownloader.generate_filing_periods`: the `(d.year, d.quarter)`
pairs of the quarter-end dates that `pd.date_range(start, end, freq='Q')`
yields, i.e. the quarter-end dates inside `[start, end]`, ascending. -/
def generate_filing_periods (s e : Date) : List (ℕ × ℕ) :=
  ((List.range' (4 * s.year) (4 * e.year + 4 - 4 * s.year)).filter
      (fun i => decide (s.val ≤ (quarterIdxEnd i).val ∧ (quarterIdxEnd i).val ≤ e.val))).map
    (fun i => (i / 4, i % 4 + 1))

/-- The claim's notion: quarter `(y, q)` is fully or partially overlapped
by the closed range `[s, e]`. -/
def overlapsQuarter (y q : ℕ) (s e : Date) : Prop :=
  (quarterStart y q).val ≤ e.val ∧ s.val ≤ (quarterEnd y q).val

/-- Counterexample to C5: for the valid range 2020-01-05 .. 2020-02-01,
quarter (2020, 1) is (partially) overlapped, yet `generate_filing_periods`
returns a list not containing it (the list is empty, because no quarter-end
date falls inside the range). -/
theorem generate_filing_periods_misses_overlapped_quarter :
    (Date.mk 2020 1 5).Valid ∧ (Date.mk 2020 2 1).Valid ∧
      (Date.mk 2020 1 5).val ≤ (Date.mk 2020 2 1).val ∧
      overlapsQuarter 2020 1 ⟨2020, 1, 5⟩ ⟨2020, 2, 1⟩ ∧
      (2020, 1) ∉ generate_filing_periods ⟨2020, 1, 5⟩ ⟨2020, 2, 1⟩ := by
  refine ⟨by decide, by decide, by decide, ⟨by decide, by decide⟩, ?_⟩
  decide

/-- C5 amended.  `generate_filing_periods` is chronologically strictly
ordered (hence duplicate-free), and contains exactly the quarters whose
quarter-END date lies inside `[start, end]`: boundary quarters whose
quarter-end falls after `end` are omitted, not included. -/
theorem generate_filing_periods_characterization (s e : Date)
    (hs : s.Valid) (he : e.Valid) :
    (generate_filing_periods s e).Pairwise
        (fun p1 p2 => 4 * p1.1 + p1.2 < 4 * p2.1 + p2.2) ∧
      ∀ y q, (y, q) ∈ generate_filing_periods s e ↔
        1 ≤ q ∧ q ≤ 4 ∧ s.val ≤ (quarterEnd y q).val ∧ (quarterEnd y q).val ≤ e.val := by
  obtain ⟨hm1, hm2, hd1, hd2⟩ := hs
  obtain ⟨hm1', hm2', hd1', hd2'⟩ := he
  constructor
  · refine List.Pairwise.map _ (fun a b hab => ?_) ((List.pairwise_lt_range' _ _).filter _)
    show 4 * (a / 4) + (a % 4 + 1) < 4 * (b / 4) + (b % 4 + 1)
    omega
  · intro y q
    unfold generate_filing_periods
    rw [List.mem_map]
    constructor
    · rintro ⟨i, hi, hfi⟩
      rw [List.mem_filter, List.mem_range'_1, decide_eq_true_eq] at hi
      obtain ⟨⟨hlo, hhi⟩, hsle, hele⟩ := hi
      cases hfi
      unfold quarterIdxEnd at hsle hele
      exact ⟨by omega, by omega, hsle, hele⟩
    · rintro ⟨hq1, hq4, hsle, hele⟩
      have hD : 30 ≤ (if q % 2 = 1 then 31 else 30) ∧ (if q % 2 = 1 then 31 else 30) ≤ 31 := by
        split_ifs <;> omega
      have hqev : (quarterEnd y q).val
          = y * 10000 + 3 * q * 100 + (if q % 2 = 1 then 31 else 30) := rfl
      have hsv : s.val = s.year * 10000 + s.month * 100 + s.day := rfl
      have hev : e.val = e.year * 10000 + e.month * 100 + e.day := rfl
      have hylo : s.year ≤ y := by omega
      have hyhi : y ≤ e.year := by omega
      refine ⟨4 * y + (q - 1), ?_, ?_⟩
      · rw [List.mem_filter, List.mem_range'_1, decide_eq_true_eq]
        have hdiv : (4 * y + (q - 1)) / 4 = y := by omega
        have hmod : (4 * y + (q - 1)) % 4 + 1 = q := by omega
        have hqe : quarterIdxEnd (4 * y + (q - 1)) = quarterEnd y q := by
          unfold quarterIdxEnd
          rw [hdiv, hmod]
        rw [hqe]
        exact ⟨⟨by omega, by omega⟩, hsle, hele⟩
      · have hdiv : (4 * y + (q - 1)) / 4 = y := by omega
        have hmod : (4 * y + (q - 1)) % 4 + 1 = q := by omega
        rw [hdiv, hmod]

/-- Witness for the amended C5 at the concrete range 2020-01-01 ..
2020-12-31: quarter (2020, 4) is in the enumeration because its quarter-end
date falls inside the range. -/
theorem generate_filing_periods_characterization_witness :
    (2020, 4) ∈ generate_filing_periods ⟨2020, 1, 1⟩ ⟨2020, 12, 31⟩ :=
  ((generate_filing_periods_characterization ⟨2020, 1, 1⟩ ⟨2020, 12, 31⟩
        (by decide) (by decide)).2 2020 4).mpr
    ⟨by decide, by decide, by decide, by decide⟩

/-! ## C10: the index-to-manifest parse drops the first 11 lines

`process_master_files` (src/sec-crawler.py lines 198-216) and
`extract_and_save_csv` (lines 235-254) run the same parse: read the file,
`content.split('\n')[11:]`, then match every remaining line against the
anchored pattern `(\d+)\|([^|]+)\|([^|]+)\|(\d{4}-\d{2}-\d{2})\|([^|\n]+)`
and collect the groups of the matching lines.  The file content is embedded
as its character list; `splitLines` is Python's `str.split('\n')` and
`parseIdxLine` is the anchored regex match (each piece is deterministic:
every repetition is bounded by a character class excluding the following
literal, so the greedy match never backtracks). -/

/-- Python `content.split('\n')`: split on every newline, keeping empty
pieces, one piece more than there are newlines. -/
def splitLines : List Char → List (List Char)
  | [] => [[]]
  | c :: rest =>
      if c = '\n' then [] :: splitLines rest
      else
        match splitLines rest with
        | [] => [[c]]
        | l :: ls => (c :: l) :: ls

/-- One row of `master.csv`: the five regex groups of an index line. -/
structure IdxEntry where
  cik : String
  company : String
  formType : String
  dateFiled : String
  filename : String
  deriving DecidableEq, Repr

/-- Take a nonempty maximal run of characters satisfying `p` (a greedy
`[...]+` class), returning the run and the rest; `none` if the run is empty. -/
def takeClass1 (p : Char → Bool) (l : List Char) : Option (List Char × List Char) :=
  if (l.takeWhile p).isEmpty then none else some (l.takeWhile p, l.dropWhile p)

/-- Consume a literal `|`. -/
def expectPipe : List Char → Option (List Char)
  | c :: rest => if c = '|' then some rest else none
  | [] => none

/-- Consume exactly `n` digits (`\d{n}`). -/
def takeDigits : ℕ → List Char → Option (List Char × List Char)
  | 0, l => some ([], l)
  | _ + 1, [] => none
  | n + 1, c :: rest =>
      if c.isDigit then
        (takeDigits n rest).map (fun g => (c :: g.1, g.2))
      else none

/-- Consume a literal `-`. -/
def expectDash : List Char → Option (List Char)
  | c :: rest => if c = '-' then some rest else none
  | [] => none

/-- The date group `\d{4}-\d{2}-\d{2}`. -/
def matchDate (l : List Char) : Option (List Char × List Char) := do
  let g1 ← takeDigits 4 l
  let r1 ← expectDash g1.2
  let g2 ← takeDigits 2 r1
  let r2 ← expectDash g2.2
  let g3 ← takeDigits 2 r2
  some (g1.1 ++ '-' :: g2.1 ++ '-' :: g3.1, g3.2)

/-- `pattern.match(line)` for
`(\d+)\|([^|]+)\|([^|]+)\|(\d{4}-\d{2}-\d{2})\|([^|\n]+)`: anchored at the
start of the line, trailing characters ignored, `none` when the line does
not match. -/
def parseIdxLine (line : List Char) : Option IdxEntry := do
  let g1 ← takeClass1 Char.isDigit line
  let r1 ← expectPipe g1.2
  let g2 ← takeClass1 (fun c => c ≠ '|') r1
  let r2 ← expectPipe g2.2
  let g3 ← takeClass1 (fun c => c ≠ '|') r2
  let r3 ← expectPipe g3.2
  let g4 ← matchDate r3
  let r4 ← expectPipe g4.2
  let g5 ← takeClass1 (fun c => c ≠ '|' ∧ c ≠ '\n') r4
  some ⟨⟨g1.1⟩, ⟨g2.1⟩, ⟨g3.1⟩, ⟨g4.1⟩, ⟨g5.1⟩⟩

/-- The rows collected by `process_master_files` / `extract_and_save_csv`
from a raw `master.idx`: drop the first 11 lines, keep the groups of the
lines matching the pattern. -/
def process_master_lines (content : List Char) : List IdxEntry :=
  ((splitLines content).drop 11).filterMap parseIdxLine

/-- C10.  The parse discards the first 11 lines unconditionally: a content
whose `split('\n')` has at most 11 pieces yields no entries; so does one
where everything after the 11th piece is empty (a short file with a
trailing newline); the result depends only on the pieces after the 11th;
and concretely, a single valid entry line placed first parses as an entry
on its own, yet yields an empty manifest. -/
theorem index_parse_drops_first_11_lines :
    (∀ content : List Char, (splitLines content).length ≤ 11 →
        process_master_lines content = []) ∧
    (∀ content : List Char, (∀ l ∈ (splitLines content).drop 11, l.isEmpty) →
        process_master_lines content = []) ∧
    (∀ c1 c2 : List Char, (splitLines c1).drop 11 = (splitLines c2).drop 11 →
        process_master_lines c1 = process_master_lines c2) ∧
    (parseIdxLine "1|Acme Corp|10-K|2020-01-01|edgar/data/1/a.txt".data =
        some ⟨"1", "Acme Corp", "10-K", "2020-01-01", "edgar/data/1/a.txt"⟩ ∧
      process_master_lines "1|Acme Corp|10-K|2020-01-01|edgar/data/1/a.txt".data = []) := by
  refine ⟨?_, ?_, ?_, by decide, by decide⟩
  · intro content h
    unfold process_master_lines
    rw [List.drop_eq_nil_of_le h, List.filterMap_nil]
  · intro content h
    unfold process_master_lines
    rw [List.filterMap_eq_nil_iff]
    intro l hl
    have : l.isEmpty := h l hl
    have hnil : l = [] := by
      cases l with
      | nil => rfl
      | cons c cs => simp [List.isEmpty] at this
    rw [hnil]
    rfl
  · intro c1 c2 h
    unfold process_master_lines
    rw [h]

/-- Witness for C10 at a one-line index file: fewer than 11 lines, so the
parse yields no entries. -/
theorem index_parse_drops_first_11_lines_witness :
    process_master_lines "1|Acme Corp|10-K|2020-01-01|edgar/data/1/a.txt".data = [] :=
  index_parse_drops_first_11_lines.1 _ (by decide)

/-! ## C8: resumability of index ingestion

Per-period filesystem state for `download_master_files` (src/sec-crawler.py
lines 150-183) and `extract_and_save_csv` (lines 219-254): whether the
`{yr}_{qr}/source` directory exists, the content of `source/master.idx`
(if present), and the rows of `source/master.csv` (if present).  HTTP is an
oracle: `some content` for a 200 response, `none` for any other status or a
raised exception (both are caught and only logged). -/

/-- One row of the persisted `master.csv`: the parsed index groups plus
the `Downloaded` column. -/
structure CsvRow where
  entry : IdxEntry
  downloaded : Bool
  deriving DecidableEq, Repr

structure PeriodFs where
  srcDirExists : Bool
  masterIdx : Option (List Char)
  masterCsv : Option (List CsvRow)
  deriving DecidableEq, Repr

/-- `SECDataDownloader.download_master_files`, one period: if the source
directory and `master.idx` both exist, `continue` without any request;
otherwise create the directory, issue one GET, and write `master.idx` only
on a 200 response.  Returns the new state and the number of HTTP requests. -/
def download_master_files (st : PeriodFs) (response : Option (List Char)) :
    PeriodFs × ℕ :=
  if st.srcDirExists ∧ st.masterIdx.isSome then (st, 0)
  else
    match response with
    | some content => ({ st with srcDirExists := true, masterIdx := some content }, 1)
    | none => ({ st with srcDirExists := true }, 1)

/-- `SECDataDownloader.extract_and_save_csv`, one period: skip if the
source directory is missing; skip (print only) if `master.csv` already
exists; otherwise parse `master.idx` (raising `FileNotFoundError`, i.e.
`none`, if it is missing), add the all-false `Downloaded` column, and write
`master.csv`. -/
def extract_and_save_csv (st : PeriodFs) : Option PeriodFs :=
  if ¬ st.srcDirExists then some st
  else if st.masterCsv.isSome then some st
  else
    match st.masterIdx with
    | none => none
    | some content =>
        some { st with
                 masterCsv := some ((process_master_lines content).map (fun e => ⟨e, false⟩)) }

/-- C8.  Index ingestion is resumable and idempotent: (a) when `master.csv`
already exists, `extract_and_save_csv` returns the state unchanged — no
re-derivation, no write; (b) running `extract_and_save_csv` again after any
completed run changes nothing; (c) when `master.idx` already exists,
`download_master_files` performs zero HTTP requests and leaves the state
unchanged; (d) two ingestion runs over identical raw index bytes produce
identical `master.csv` rows. -/
theorem index_ingestion_resumable :
    (∀ st : PeriodFs, st.masterCsv.isSome → extract_and_save_csv st = some st) ∧
    (∀ st st1 : PeriodFs, extract_and_save_csv st = some st1 →
        extract_and_save_csv st1 = some st1) ∧
    (∀ (st : PeriodFs) (r : Option (List Char)),
        st.srcDirExists = true → st.masterIdx.isSome →
        download_master_files st r = (st, 0)) ∧
    (∀ st st' st1 st1' : PeriodFs,
        st.masterIdx = st'.masterIdx →
        st.srcDirExists = true → st'.srcDirExists = true →
        st.masterCsv = none → st'.masterCsv = none →
        extract_and_save_csv st = some st1 → extract_and_save_csv st' = some st1' →
        st1.masterCsv = st1'.masterCsv) := by
  refine ⟨?_, ?_, ?_, ?_⟩
  · intro st h
    unfold extract_and_save_csv
    simp [h]
  · intro st st1 h
    unfold extract_and_save_csv at h ⊢
    by_cases hs : st.srcDirExists
    · by_cases hc : st.masterCsv.isSome
      · simp [hs, hc] at h
        subst h
        simp [hs, hc]
      · rcases hidx : st.masterIdx with _ | content
        · simp [hs, hc, hidx] at h
        · simp [hs, hc, hidx] at h
          subst h
          simp [hs]
    · simp [hs] at h
      subst h
      simp [hs]
  · intro st r hs hidx
    unfold download_master_files
    simp [hs, hidx]
  · intro st st' st1 st1' hidx hs hs' hc hc' h h'
    unfold extract_and_save_csv at h h'
    rcases hi : st.masterIdx with _ | content
    · rw [hi] at h
      simp [hs, hc] at h
    · rw [hi] at h
      rw [hidx] at hi
      rw [hi] at h'
      simp [hs, hc] at h
      simp [hs', hc'] at h'
      subst h
      subst h'
      simp [hc, hc']

/-- Witness for C8 at a concrete state holding an already-ingested period:
a second run of either operation is a no-op with zero requests. -/
theorem index_ingestion_resumable_witness :
    extract_and_save_csv ⟨true, some "x".data, some []⟩ = some ⟨true, some "x".data, some []⟩ ∧
      download_master_files ⟨true, some "x".data, some []⟩ none =
        (⟨true, some "x".data, some []⟩, 0) :=
  ⟨index_ingestion_resumable.1 ⟨true, some "x".data, some []⟩ (by decide),
    index_ingestion_resumable.2.2.1 ⟨true, some "x".data, some []⟩ none rfl (by decide)⟩

/-! ## C2, C9, C4: download_filings and the validator

Per-period state for `download_filings` (src/sec-crawler.py lines 257-289),
`download_sec_file` (lines 292-308) and `validated_downloaded_filings`
(lines 311-339): the `source` directory, the rows of `master.csv`, the
per-type output directory `{yr}_{qr}/{filing_type.value}` and the files it
contains.  The network is an oracle `success : String → Bool` saying
whether the GET for a given filename returns 200 (non-200 and exceptions
are both caught and only printed). -/

/-- `file.split('/')[-1]`: the basename of a remote path. -/
def splitOnChar (sep : Char) : List Char → List (List Char)
  | [] => [[]]
  | c :: rest =>
      if c = sep then [] :: splitOnChar sep rest
      else
        match splitOnChar sep rest with
        | [] => [[c]]
        | l :: ls => (c :: l) :: ls

def basename (s : String) : String := ⟨(splitOnChar '/' s.data).getLastD []⟩

structure FilingState where
  srcDirExists : Bool
  masterCsv : Option (List CsvRow)
  typeDirExists : Bool
  typeFiles : List String
  deriving DecidableEq, Repr

/-- `SECDataDownloader.download_sec_file`, its filesystem effect: on a 200
response write the body to `path / file.split('/')[-1]`; otherwise print
and change nothing.  (Every call first blocks on the rate limiter and
issues exactly one GET.) -/
def download_sec_file (success : Bool) (file : String) (typeFiles : List String) :
    List String :=
  if success then typeFiles ++ [basename file] else typeFiles

/-- `SECDataDownloader.download_filings`, one period: skip when the source
directory is missing; read `master.csv` (`none` models the uncaught
`pd.read_csv` failure when it is absent); select rows with the requested
form type and `Downloaded == False`; if the per-type directory already
exists, `continue` — dispatch nothing; otherwise create it and dispatch one
`download_sec_file` per selected row.  Returns the new state and the number
of GET requests.  The function never writes `master.csv` back and returns
no report. -/
def download_filings (ft : SECFileType) (st : FilingState)
    (success : String → Bool) : Option (FilingState × ℕ) :=
  if ¬ st.srcDirExists then some (st, 0)
  else
    match st.masterCsv with
    | none => none
    | some rows =>
        let sec_filing := rows.filter
          (fun r => r.entry.formType == ft.value && r.downloaded == false)
        if st.typeDirExists then some (st, 0)
        else
          some ({ st with
                    typeDirExists := true,
                    typeFiles := sec_filing.foldl
                      (fun acc r => download_sec_file (success r.entry.filename)
                        r.entry.filename acc) st.typeFiles },
                sec_filing.length)

/-- `SECDataDownloader.validated_downloaded_filings`, one period: skip when
the source directory is missing; read `master.csv`; skip when the per-type
directory is missing; then the row loop executes `filename = rowp['Filename']`
— `rowp` is an undefined name, so any nonempty manifest raises `NameError`
(and an empty one reaches `df.to_csv(output_file)` where `output_file` is
also undefined). -/
def validated_downloaded_filings (ft : SECFileType) (st : FilingState) :
    Except String Unit :=
  if ¬ st.srcDirExists then .ok ()
  else
    match st.masterCsv with
    | none => .error "FileNotFoundError: master.csv"
    | some rows =>
        let sec_filing := rows.filter (fun r => r.entry.formType == ft.value)
        if ¬ st.typeDirExists then .ok ()
        else
          match rows with
          | _ :: _ => .error "NameError: name rowp is not defined"
          | [] =>
              let _ := sec_filing
              .error "NameError: name output_file is not defined"

/-- A sample manifest row used by the concrete counterexamples. -/
def sampleRow : CsvRow :=
  ⟨⟨"1", "Acme Corp", "10-K", "2020-01-01", "edgar/data/1/a.txt"⟩, false⟩

/-- Counterexample to C2: a period whose manifest holds one not-yet
downloaded 10-K row; the GET succeeds and the file is persisted
(`typeFiles = ["a.txt"]`), yet the returned manifest still carries
`downloaded = false` for that row and no report is produced — the
`downloaded` flag is not set to `true` on success. -/
theorem download_filings_no_flag_update :
    download_filings SECFileType.TEN_K ⟨true, some [sampleRow], false, []⟩ (fun _ => true) =
        some (⟨true, some [sampleRow], true, ["a.txt"]⟩, 1) ∧
      ((⟨true, some [sampleRow], true, ["a.txt"]⟩ : FilingState).masterCsv.getD []).all
          (fun r => r.downloaded) = false := by
  exact ⟨by decide, by decide⟩

/-- C2 amended.  `download_filings` persists successfully fetched files but
never touches the manifest: whatever the network outcomes, the `master.csv`
rows — their `downloaded` flags included — are returned exactly as read,
and the only result is the request count (no report object). -/
theorem download_filings_manifest_unchanged (ft : SECFileType) (st : FilingState)
    (success : String → Bool) (st1 : FilingState) (n : ℕ)
    (h : download_filings ft st success = some (st1, n)) :
    st1.masterCsv = st.masterCsv := by
  unfold download_filings at h
  by_cases hs : st.srcDirExists
  · rcases hc : st.masterCsv with _ | rows
    · rw [hc] at h
      simp [hs] at h
    · rw [hc] at h
      simp only [hs, not_true_eq_false, if_false] at h
      by_cases ht : st.typeDirExists
      · simp [ht] at h
        obtain ⟨rfl, rfl⟩ := h
        exact hc
      · simp [ht] at h
        obtain ⟨rfl, rfl⟩ := h
        rfl
  · simp [hs] at h
    obtain ⟨rfl, rfl⟩ := h
    rfl

/-- Witness for the amended C2 at the concrete counterexample input. -/
theorem download_filings_manifest_unchanged_witness :
    (⟨true, some [sampleRow], true, ["a.txt"]⟩ : FilingState).masterCsv =
      (⟨true, some [sampleRow], false, []⟩ : FilingState).masterCsv :=
  download_filings_manifest_unchanged SECFileType.TEN_K
    ⟨true, some [sampleRow], false, []⟩ (fun _ => true)
    ⟨true, some [sampleRow], true, ["a.txt"]⟩ 1 (by decide)

/-- C9.  Re-running `download_filings` over a period after any completed
run performs zero GET requests and changes nothing: the first run either
skipped the period (missing source directory, or per-type directory already
present) or created the per-type directory, and the re-run hits a skip
branch in every case. -/
theorem download_filings_rerun_zero_network (ft : SECFileType) (st : FilingState)
    (success success2 : String → Bool) (st1 : FilingState) (n : ℕ)
    (h : download_filings ft st success = some (st1, n)) :
    download_filings ft st1 success2 = some (st1, 0) := by
  unfold download_filings at h ⊢
  by_cases hs : st.srcDirExists
  · rcases hc : st.masterCsv with _ | rows
    · rw [hc] at h
      simp [hs] at h
    · rw [hc] at h
      simp only [hs, not_true_eq_false, if_false] at h
      by_cases ht : st.typeDirExists
      · simp [ht] at h
        obtain ⟨rfl, rfl⟩ := h
        simp [hs, hc, ht]
      · simp [ht] at h
        obtain ⟨rfl, rfl⟩ := h
        simp [hs, hc]
  · simp [hs] at h
    obtain ⟨rfl, rfl⟩ := h
    simp [hs]

/-- Witness for C9: after the first run over the sample period, the second
run returns the state unchanged with zero requests. -/
theorem download_filings_rerun_zero_network_witness :
    download_filings SECFileType.TEN_K ⟨true, some [sampleRow], true, ["a.txt"]⟩
        (fun _ => false) = some (⟨true, some [sampleRow], true, ["a.txt"]⟩, 0) :=
  download_filings_rerun_zero_network SECFileType.TEN_K
    ⟨true, some [sampleRow], false, []⟩ (fun _ => true) (fun _ => false)
    ⟨true, some [sampleRow], true, ["a.txt"]⟩ 1 (by decide)

/-- C4 (code bug).  On any period with a source directory, a readable
manifest with at least one row, and an existing per-type directory, the
validator raises `NameError` at `filename = rowp['Filename']` instead of
reconciling the `downloaded` flags: it never checks a single file, never
corrects a flag, and never persists anything. -/
theorem validator_raises_nameerror :
    validated_downloaded_filings SECFileType.TEN_K
      ⟨true, some [sampleRow], true, ["a.txt"]⟩ =
        .error "NameError: name rowp is not defined" := rfl

/-! ## C3: retry classification in SEC_downloader._download (src/download.py)

`_download` runs `for i in range(2)` — two loop iterations in total.  Each
iteration evaluates `requests.get(url, headers=HEADER)`; the outcome of
that evaluation on attempt `i` is the oracle `get i`.  A 200 response
returns the (type-dependent encoding of the) body; any other status code
prints and falls through to the next iteration (the `if i == 2` inside the
loop can never fire under `range(2)`); a raised exception whose text
contains `404` breaks out of the loop; any other exception sleeps 0.1 s
and continues.  Falling off the loop returns `None`.  Note the source
references the unbound name `HEADER` (the constructor only sets
`self.HEADER`), so evaluating the call itself raises
`NameError: name HEADER is not defined` on every attempt. -/

inductive GetResult where
  | ok (body : List Char)
  | status (code : ℕ)
  | exc (msg : String)
  deriving DecidableEq, Repr

def isPrefixOfChars : List Char → List Char → Bool
  | [], _ => true
  | _ :: _, [] => false
  | a :: as, b :: bs => a == b && isPrefixOfChars as bs

/-- Python substring test `needle in hay`. -/
def containsSeq (needle : List Char) : List Char → Bool
  | [] => isPrefixOfChars needle []
  | c :: rest => isPrefixOfChars needle (c :: rest) || containsSeq needle rest

/-- Python `'404' in str(exc)`. -/
def has404 (msg : String) : Bool := containsSeq "404".data msg.data

/-- The retry loop of `_download`: remaining iterations, attempt index,
returning (number of attempts executed, result).  `none` is Python `None`
(retry budget exhausted or 404-exception break). -/
def runDownload (get : ℕ → GetResult) : ℕ → ℕ → ℕ × Option (List Char)
  | _, 0 => (0, none)
  | i, b + 1 =>
      match get i with
      | .ok body => (1, some body)
      | .status _ =>
          let r := runDownload get (i + 1) b
          (r.1 + 1, r.2)
      | .exc m =>
          if has404 m then (1, none)
          else
            let r := runDownload get (i + 1) b
            (r.1 + 1, r.2)

/-- `SEC_downloader._download`: the loop entered with `range(2)`. -/
def download_loop (get : ℕ → GetResult) : ℕ × Option (List Char) :=
  runDownload get 0 2

/-- C3 (code bug).  Evaluating the embedded `_download` at the failing
inputs: (a) with the source as written, every attempt raises
`NameError: name HEADER is not defined` — not a 404-text exception — so
the loop runs its 2 attempts and returns `None` without any
classification; (b) an HTTP 404 response takes the non-200 status branch
and IS retried (2 attempts), though the claim says never retried; (c) a
transient HTTP 503 gets 2 total attempts — 1 retry, not the claimed
budget of 2 additional attempts (3 total). -/
theorem download_loop_retry_behavior :
    download_loop (fun _ => .exc "name HEADER is not defined") = (2, none) ∧
      download_loop (fun _ => .status 404) = (2, none) ∧
      download_loop (fun _ => .status 503) = (2, none) ∧
      download_loop (fun _ => .exc "HTTPError 404 Not Found") = (1, none) :=
  ⟨rfl, rfl, rfl, rfl⟩

/-! ## C6: no write is atomic with respect to partial writes

Every persisting write in the source opens the destination path itself and
writes the body in place: `download_sec_file` does
`open(local_file, 'wb')` then `file.write(response.content)` (lines
302-303), `download_master_files` does the same for `master.idx` (lines
174-175), and the manifest writes are direct `df.to_csv(output_file)`
calls.  No temporary file and no rename exist anywhere.  `persistDirect`
is such a write run to completion; `interruptedWrite` is the same write
interrupted after `k` bytes — the partial content sits at the final
destination path.  The filesystem is an association list keyed by path. -/

def persistDirect (fs : List (String × List Char)) (p : String) (c : List Char) :
    List (String × List Char) :=
  (p, c) :: fs

def interruptedWrite (fs : List (String × List Char)) (p : String) (c : List Char)
    (k : ℕ) : List (String × List Char) :=
  (p, c.take k) :: fs

/-- Counterexample to C6: interrupting the direct write of a filing body
after 1 of its 3 bytes leaves a 1-byte file visible at the final
destination path — the claim that an interruption never leaves a
partially-written file at the destination is false of this write
discipline. -/
theorem direct_write_crash_leaves_partial_file :
    (interruptedWrite [] "2020_1/10-K/a.txt" "abc".data 1).lookup "2020_1/10-K/a.txt" =
        some (List.take 1 "abc".data) ∧
      List.take 1 "abc".data ≠ "abc".data := by
  exact ⟨rfl, by decide⟩

/-- C6 amended.  The core's persisting writes go straight to the final
path with no temporary-then-rename step, so whenever a write of `c` to `p`
is interrupted after `k < c.length` bytes, the final path holds exactly the
partial prefix — a partially-written file visible at the destination. -/
theorem direct_write_crash_partial_visible (fs : List (String × List Char))
    (p : String) (c : List Char) (k : ℕ) :
    (interruptedWrite fs p c k).lookup p = some (c.take k) ∧
      (k < c.length → c.take k ≠ c) := by
  constructor
  · simp [interruptedWrite, List.lookup]
  · intro hk heq
    have hlen := congrArg List.length heq
    rw [List.length_take] at hlen
    omega

/-- Witness for the amended C6 at a concrete 2-byte write cut after 1 byte. -/
theorem direct_write_crash_partial_visible_witness :
    (interruptedWrite [] "f" "ab".data 1).lookup "f" = some (List.take 1 "ab".data) ∧
      List.take 1 "ab".data ≠ "ab".data :=
  ⟨(direct_write_crash_partial_visible [] "f" "ab".data 1).1,
    (direct_write_crash_partial_visible [] "f" "ab".data 1).2 (by decide)⟩

end SecCrawler
